import Mathlib

/-!
# Verification of the aircast-cli MAVLink bridge

A shallow embedding of the bridge core (`Bridge` in the Go source): the
circuit-breaker fields mutated by `recordFailure` / `resetCircuit`, the
`readWebSocket` loop body, `writeToWebSocket`, the TCP/UDP client
registries, and `Stop`.  Time is modelled as `Nat` (seconds); byte payloads
as `List Nat`; the gorilla message-type integers are kept
(`BinaryMessage = 2`, `TextMessage = 1`).
-/

namespace Aircast

/-- The `circuitState` string field of `Bridge`: `"closed"`, `"open"`,
`"half-open"`.  The Go code stores it as a string; we use an enumeration,
with `opened` standing for the string `"open"`. -/
inductive CircuitState where
  | closed
  | opened
  | halfOpen
  deriving DecidableEq, Repr

/-- The circuit-breaker fields of `Bridge` (source lines 52–57):
`circuitState`, `failureCount`, `lastFailureTime`, `circuitOpenUntil`,
`failureThreshold`, `circuitOpenPeriod`.  Times and durations in whole
seconds. -/
structure Gate where
  circuitState : CircuitState
  failureCount : Nat
  lastFailureTime : Nat
  circuitOpenUntil : Nat
  failureThreshold : Nat
  circuitOpenPeriod : Nat
  deriving DecidableEq, Repr

/-- The gate as initialised by `New`: state `"closed"`, zero counters,
`failureThreshold = 3`, `circuitOpenPeriod = 30` seconds. -/
def initialGate : Gate :=
  { circuitState := .closed
    failureCount := 0
    lastFailureTime := 0
    circuitOpenUntil := 0
    failureThreshold := 3
    circuitOpenPeriod := 30 }

/-- `Bridge.recordFailure` at time `now`: increments `failureCount`, stamps
`lastFailureTime`; if the count has reached the threshold AND the state is
`"closed"`, moves to `"open"` and sets `circuitOpenUntil = now + period`. -/
def recordFailure (now : Nat) (b : Gate) : Gate :=
  let b1 := { b with failureCount := b.failureCount + 1, lastFailureTime := now }
  if b1.failureCount ≥ b1.failureThreshold ∧ b1.circuitState = .closed then
    { b1 with circuitState := .opened, circuitOpenUntil := now + b1.circuitOpenPeriod }
  else
    b1

/-- `Bridge.resetCircuit`: zeroes the failure counter and forces the state
back to `"closed"`. -/
def resetCircuit (b : Gate) : Gate :=
  { b with failureCount := 0, circuitState := .closed }

/-- The cooldown-wait block of `readWebSocket` (source lines 330–344): if
the state is `"open"` and the expiry lies in the future, the loop sleeps
until `circuitOpenUntil` and then sets the state to `"half-open"`.
Returns the gate and the time at which execution resumes. -/
def cooldownExpire (now : Nat) (b : Gate) : Gate × Nat :=
  if b.circuitState = .opened ∧ now < b.circuitOpenUntil then
    ({ b with circuitState := .halfOpen }, b.circuitOpenUntil)
  else
    (b, now)

/-- gorilla `websocket.TextMessage`. -/
def TextMessage : Nat := 1

/-- gorilla `websocket.BinaryMessage`. -/
def BinaryMessage : Nat := 2

/-- Outcome of one `wsConn.ReadMessage()` call in the read loop: either an
error (read at time `now`), or a message with its gorilla type tag and
payload bytes. -/
inductive LoopEvent where
  | readErr (now : Nat)
  | readMsg (msgType : Nat) (data : List Nat)
  deriving DecidableEq, Repr

/-- Observable effects of one iteration of the `readWebSocket` loop body:
the gate afterwards, the reconnect attempt (time it is issued and the gate
state at that moment) if the iteration makes one, the payload handed to the
broadcast path if any, and whether `resetCircuit` was invoked. -/
structure LoopIterResult where
  gate : Gate
  reconnectAttempt : Option (Nat × CircuitState)
  broadcastPayload : Option (List Nat)
  resetCalled : Bool
  deriving DecidableEq, Repr

/-- One iteration of the `readWebSocket` loop body (source lines 320–385).
On a read error: `recordFailure`, then the cooldown-wait block, then one
`reconnectWebSocket` attempt; the circuit is NOT reset on reconnection.
On a received message: `resetCircuit` first, then the payload is forwarded
to the broadcast path only when the message is binary. -/
def loopIter (b : Gate) : LoopEvent → LoopIterResult
  | .readErr now =>
      let b1 := recordFailure now b
      let p := cooldownExpire now b1
      { gate := p.1
        reconnectAttempt := some (p.2, p.1.circuitState)
        broadcastPayload := none
        resetCalled := false }
  | .readMsg msgType data =>
      let b1 := resetCircuit b
      { gate := b1
        reconnectAttempt := none
        broadcastPayload := if msgType = BinaryMessage then some data else none
        resetCalled := true }

/-- Gate-level events as the spec's claim C1 phrases them: a recorded
failure, a recorded success (successful inbound read), and the loop's
cooldown-expiry advance. -/
inductive GateEvent where
  | fail (now : Nat)
  | success
  | expire (now : Nat)
  deriving DecidableEq, Repr

/-- One gate transition per event. -/
def gateStep (b : Gate) : GateEvent → Gate
  | .fail now => recordFailure now b
  | .success => resetCircuit b
  | .expire now => (cooldownExpire now b).1

/-- Run a sequence of gate events from a starting gate. -/
def gateRun (b : Gate) (es : List GateEvent) : Gate :=
  es.foldl gateStep b

/-- The WebSocket-connection part of the bridge state threaded through
`reconnectWebSocket`: the gate fields plus the current `wsConn` handle
(`none` = nil). -/
structure BridgeState where
  gate : Gate
  wsConn : Option Nat
  deriving DecidableEq, Repr

/-- `Bridge.reconnectWebSocket` (source lines 401–432): closes the old
connection (so `wsConn` becomes nil), then dials; `dial = some h` models a
handshake that succeeds with new connection handle `h`, `dial = none` a
failed dial.  The boolean is `true` on success.  The gate fields are not
touched anywhere in the function. -/
def reconnectWebSocket (s : BridgeState) (dial : Option Nat) : BridgeState × Bool :=
  match dial with
  | none => ({ s with wsConn := none }, false)
  | some h => ({ s with wsConn := some h }, true)

/-- A sequence of reconnect attempts with the given dial outcomes. -/
def reconnectRun (s : BridgeState) (dials : List (Option Nat)) : BridgeState :=
  dials.foldl (fun st d => (reconnectWebSocket st d).1) s

theorem reconnectWebSocket_gate (s : BridgeState) (d : Option Nat) :
    ((reconnectWebSocket s d).1).gate = s.gate := by
  cases d <;> rfl

theorem reconnectRun_gate (dials : List (Option Nat)) (s : BridgeState) :
    (reconnectRun s dials).gate = s.gate := by
  induction dials generalizing s with
  | nil => rfl
  | cons d ds ih =>
      show (reconnectRun (reconnectWebSocket s d).1 ds).gate = s.gate
      rw [ih, reconnectWebSocket_gate]

/-- Claim C1: the FailureGate transition relation, settled against the code.
The claim is falsified on the part "any failure recorded while the state is
HalfOpen or Open leaves/returns the state to Open with a freshly extended
cooldown-expiry": `recordFailure` changes state only when it is `"closed"`,
so a failure while `"half-open"` leaves the state `"half-open"` and a
failure while `"open"` does not extend `circuitOpenUntil`.  This theorem
proves the run below, reachable from Closed with counter 0, ends in state
`halfOpen` (the claim requires `opened`), and that a failure while Open
leaves the expiry at 30 (the claim requires 35). -/
theorem C1_counterexample :
    (gateRun initialGate
        [.fail 0, .fail 0, .fail 0, .expire 0, .fail 31]).circuitState
      = CircuitState.halfOpen ∧
    (gateRun initialGate
        [.fail 0, .fail 0, .fail 0, .expire 0, .fail 31]).circuitState
      ≠ CircuitState.opened ∧
    (gateRun initialGate
        [.fail 0, .fail 0, .fail 0, .fail 5]).circuitOpenUntil = 30 := by
  decide

/-- Claim C1 (amended): the gate's actual transition relation.
`recordFailure` moves `Closed→Open` exactly when the incremented counter
reaches the threshold, setting expiry = now + period; any other failure
(state Open or HalfOpen, or counter below threshold) only increments the
counter and stamps `lastFailureTime`, leaving state and expiry unchanged;
`resetCircuit` forces counter 0 and state Closed; the cooldown-expiry step
moves `Open→HalfOpen` exactly when the state is Open and the expiry lies in
the future, and otherwise changes nothing. -/
theorem C1_gate_transitions (b : Gate) (now : Nat) :
    (b.circuitState = .closed → b.failureCount + 1 ≥ b.failureThreshold →
      recordFailure now b =
        { b with circuitState := .opened, failureCount := b.failureCount + 1,
                 lastFailureTime := now, circuitOpenUntil := now + b.circuitOpenPeriod }) ∧
    (b.circuitState ≠ .closed ∨ b.failureCount + 1 < b.failureThreshold →
      recordFailure now b =
        { b with failureCount := b.failureCount + 1, lastFailureTime := now }) ∧
    resetCircuit b = { b with failureCount := 0, circuitState := .closed } ∧
    (b.circuitState = .opened → now < b.circuitOpenUntil →
      (cooldownExpire now b).1 = { b with circuitState := .halfOpen }) ∧
    (¬ (b.circuitState = .opened ∧ now < b.circuitOpenUntil) →
      (cooldownExpire now b).1 = b) := by
  refine ⟨?_, ?_, rfl, ?_, ?_⟩
  · intro h1 h2
    simp [recordFailure, h1, h2]
  · intro h
    rcases h with h | h
    · simp [recordFailure, h]
    · simp [recordFailure]
      omega
  · intro h1 h2
    simp [cooldownExpire, h1, h2]
  · intro h
    simp [cooldownExpire, h]

/-- Witness for `C1_gate_transitions`: a third failure at time 5 on a
closed gate with two prior failures opens the circuit until 35. -/
theorem C1_gate_transitions_witness :
    recordFailure 5 { initialGate with failureCount := 2 } =
      { initialGate with
        circuitState := .opened
        failureCount := 3
        lastFailureTime := 5
        circuitOpenUntil := 35 } :=
  (C1_gate_transitions { initialGate with failureCount := 2 } 5).1 rfl (by decide)

/-- Claim C2: with the `New` defaults (threshold 3, cooldown 30 s), for any
failure times `t1 t2 t3`: the first two read failures leave the gate Closed
(their reconnect attempts are issued immediately, in state Closed, so no
attempt happens while the gate is Open); the third failure moves
`Closed→Open` with expiry `t3 + 30`; that iteration's single reconnect
attempt is issued exactly at the expiry time `t3 + 30`, with the state
having advanced `Open→HalfOpen` first. -/
theorem C2_gate_threshold_cooldown (t1 t2 t3 : Nat) :
    (loopIter initialGate (.readErr t1)).gate.circuitState = .closed ∧
    (loopIter initialGate (.readErr t1)).reconnectAttempt = some (t1, .closed) ∧
    (loopIter (loopIter initialGate (.readErr t1)).gate (.readErr t2)).gate.circuitState
      = .closed ∧
    (loopIter (loopIter initialGate (.readErr t1)).gate (.readErr t2)).reconnectAttempt
      = some (t2, .closed) ∧
    (recordFailure t3
      (loopIter (loopIter initialGate (.readErr t1)).gate (.readErr t2)).gate).circuitState
      = .opened ∧
    (recordFailure t3
      (loopIter (loopIter initialGate (.readErr t1)).gate (.readErr t2)).gate).circuitOpenUntil
      = t3 + 30 ∧
    (loopIter (loopIter (loopIter initialGate (.readErr t1)).gate (.readErr t2)).gate
        (.readErr t3)).gate.circuitState = .halfOpen ∧
    (loopIter (loopIter (loopIter initialGate (.readErr t1)).gate (.readErr t2)).gate
        (.readErr t3)).reconnectAttempt = some (t3 + 30, .halfOpen) := by
  simp [loopIter, recordFailure, cooldownExpire, initialGate]

/-- Claim C3: a reconnect handshake never touches the gate: after any
sequence of reconnect attempts ending in a successful one, the gate is
exactly what the preceding failures left (and the new connection is
installed); an error iteration never calls `resetCircuit`; the reset to
counter 0 / state Closed happens exactly at the first successful read. -/
theorem C3_reset_only_on_read (g : Gate) (c : Option Nat) (dials : List (Option Nat))
    (h t now : Nat) (d : List Nat) :
    (reconnectRun ⟨g, c⟩ (dials ++ [some h])).gate = g ∧
    (reconnectRun ⟨g, c⟩ (dials ++ [some h])).wsConn = some h ∧
    (loopIter g (.readErr now)).resetCalled = false ∧
    (loopIter g (.readMsg t d)).resetCalled = true ∧
    (loopIter g (.readMsg t d)).gate = resetCircuit g ∧
    (loopIter g (.readMsg t d)).gate.failureCount = 0 ∧
    (loopIter g (.readMsg t d)).gate.circuitState = .closed := by
  refine ⟨reconnectRun_gate _ _, ?_, rfl, rfl, rfl, rfl, rfl⟩
  have hsplit : reconnectRun ⟨g, c⟩ (dials ++ [some h])
      = reconnectRun (reconnectRun ⟨g, c⟩ dials) [some h] := by
    simp [reconnectRun, List.foldl_append]
  rw [hsplit]
  rfl

/-- Claim C4: falsified on "without invoking any FailureGate callback" for
non-binary messages: `readWebSocket` calls `resetCircuit` on every
successful read BEFORE checking the message type (source line 358), so a
text message on a gate with two recorded failures resets the counter to 0
— while the payload is indeed not forwarded. -/
theorem C4_counterexample :
    (loopIter { initialGate with failureCount := 2 }
        (.readMsg TextMessage [1, 2, 3])).resetCalled = true ∧
    (loopIter { initialGate with failureCount := 2 }
        (.readMsg TextMessage [1, 2, 3])).gate.failureCount = 0 ∧
    (loopIter { initialGate with failureCount := 2 }
        (.readMsg TextMessage [1, 2, 3])).broadcastPayload = none := by
  decide

/-- Claim C4 (amended): every successfully read message, binary or not,
invokes `resetCircuit` (the recordSuccess callback) on the gate; the
payload is then forwarded unmodified to the broadcast path exactly when the
message is binary, and discarded otherwise. -/
theorem C4_binary_forwarding (g : Gate) (msgType : Nat) (d : List Nat) :
    (loopIter g (.readMsg msgType d)).resetCalled = true ∧
    (loopIter g (.readMsg msgType d)).gate = resetCircuit g ∧
    (loopIter g (.readMsg msgType d)).broadcastPayload
      = (if msgType = BinaryMessage then some d else none) :=
  ⟨rfl, rfl, rfl⟩

/-- The TCP read buffer size in `handleTCPClient`: `buf := make([]byte, 4096)`. -/
def tcpBufSize : Nat := 4096

/-- The successive `conn.Read(buf)` results of `handleTCPClient` on a
pending byte stream: each read returns `min(remaining, bufSize)` bytes.
`fuel` bounds the recursion; with `fuel = length` and `bufSize ≥ 1` it
never runs out. -/
def readChunksFuel (bufSize : Nat) : Nat → List Nat → List (List Nat)
  | 0, _ => []
  | _ + 1, [] => []
  | fuel + 1, x :: xs =>
      (x :: xs).take bufSize :: readChunksFuel bufSize fuel ((x :: xs).drop bufSize)

/-- The sequence of WebSocket messages `handleTCPClient` produces for a
pending client byte stream (source lines 224–246): each read's bytes
`buf[:n]` are passed to `writeToWebSocket`, which sends them as one binary
message. -/
def handleTCPClientMessages (pending : List Nat) : List (Nat × List Nat) :=
  (readChunksFuel tcpBufSize pending.length pending).map (fun c => (BinaryMessage, c))

theorem readChunksFuel_nil (bufSize fuel : Nat) : readChunksFuel bufSize fuel [] = [] := by
  cases fuel <;> rfl

theorem readChunksFuel_singleton (bufSize fuel : Nat) (l : List Nat)
    (hne : l ≠ []) (hlen : l.length ≤ bufSize) (hfuel : 1 ≤ fuel) :
    readChunksFuel bufSize fuel l = [l] := by
  cases fuel with
  | zero => omega
  | succ f =>
      cases l with
      | nil => exact absurd rfl hne
      | cons x xs =>
          show (x :: xs).take bufSize
              :: readChunksFuel bufSize f ((x :: xs).drop bufSize) = [x :: xs]
          rw [List.take_of_length_le hlen, List.drop_eq_nil_of_le hlen, readChunksFuel_nil]

theorem readChunksFuel_length_pos (bufSize fuel : Nat) (l : List Nat)
    (hne : l ≠ []) (hfuel : 1 ≤ fuel) :
    1 ≤ (readChunksFuel bufSize fuel l).length := by
  cases fuel with
  | zero => omega
  | succ f =>
      cases l with
      | nil => exact absurd rfl hne
      | cons x xs =>
          show 1 ≤ ((x :: xs).take bufSize
              :: readChunksFuel bufSize f ((x :: xs).drop bufSize)).length
          simp

theorem readChunksFuel_length_two (bufSize fuel : Nat) (l : List Nat)
    (hbuf : 1 ≤ bufSize) (hlt : bufSize < l.length) (hfuel : l.length ≤ fuel) :
    2 ≤ (readChunksFuel bufSize fuel l).length := by
  cases fuel with
  | zero => omega
  | succ f =>
      cases l with
      | nil => simp at hlt
      | cons x xs =>
          show 2 ≤ ((x :: xs).take bufSize
              :: readChunksFuel bufSize f ((x :: xs).drop bufSize)).length
          have hd : ((x :: xs).drop bufSize) ≠ [] := by
            rw [Ne, List.drop_eq_nil_iff]
            omega
          have hlen : 1 ≤ f := by
            have := List.length_pos.mpr hd
            rw [List.length_drop] at this
            omega
          have := readChunksFuel_length_pos bufSize f ((x :: xs).drop bufSize) hd hlen
          simp only [List.length_cons]
          omega

/-- Claim C5: falsified on "regardless of the size of P": `handleTCPClient`
forwards per 4096-byte read, so a 4097-byte payload is segmented into two
upstream binary messages, not one. -/
theorem C5_counterexample :
    (handleTCPClientMessages (List.replicate 4097 0)).length ≠ 1 := by
  have hlen : (List.replicate 4097 (0 : Nat)).length = 4097 := List.length_replicate _ _
  have h2 : 2 ≤ (readChunksFuel tcpBufSize (List.replicate 4097 (0 : Nat)).length
      (List.replicate 4097 0)).length := by
    apply readChunksFuel_length_two
    · simp [tcpBufSize]
    · rw [hlen]; simp [tcpBufSize]
    · omega
  rw [handleTCPClientMessages, List.length_map]
  omega

/-- Claim C5 (amended): a nonempty payload of at most 4096 bytes, delivered
to `handleTCPClient` in a single read, appears on the upstream as exactly
one binary message byte-for-byte identical to it; larger sends are split at
the 4096-byte read-buffer boundary into several binary messages. -/
theorem C5_byte_fidelity (P : List Nat) (h1 : P ≠ []) (h2 : P.length ≤ tcpBufSize) :
    handleTCPClientMessages P = [(BinaryMessage, P)] := by
  have h3 : 1 ≤ P.length := List.length_pos.mpr h1
  rw [handleTCPClientMessages, readChunksFuel_singleton tcpBufSize P.length P h1 h2 h3]
  rfl

/-- Witness for `C5_byte_fidelity` at the one-byte payload `[7]`. -/
theorem C5_byte_fidelity_witness :
    handleTCPClientMessages [7] = [(BinaryMessage, [7])] :=
  C5_byte_fidelity [7] (by decide) (by decide)

/-- `Bridge.writeToWebSocket` (source lines 388–398): under the write lock,
returns the error "WebSocket not connected" and sends nothing when `wsConn`
is nil; otherwise performs exactly one `WriteMessage(BinaryMessage, data)`.
The second component lists the messages put on the wire by the call. -/
def writeToWebSocket (wsConn : Option Nat) (data : List Nat) :
    Except String Unit × List (Nat × List Nat) :=
  match wsConn with
  | none => (.error "WebSocket not connected", [])
  | some _ => (.ok (), [(BinaryMessage, data)])

/-- Claim C6: with no active session, `writeToWebSocket` fails with the
not-connected error and sends nothing; with any active session it succeeds
and sends the payload as exactly one binary message, unsplit and
uncoalesced. -/
theorem C6_writeFrame (h : Nat) (data : List Nat) :
    writeToWebSocket none data = (.error "WebSocket not connected", []) ∧
    writeToWebSocket (some h) data = (.ok (), [(BinaryMessage, data)]) :=
  ⟨rfl, rfl⟩

/-- Outcome of one broadcast pass over a registry: which destinations
received the payload and which write calls failed. -/
structure BroadcastResult where
  delivered : List (String × List Nat)
  failedAddrs : List String
  deriving DecidableEq, Repr

/-- The broadcast loop of `readWebSocket` over one registry (source lines
366–384): each registered destination is written to in turn; a failed write
(`c.2 = false` models a destination whose write errors) is logged and the
loop continues with the remaining destinations.  No registry entry is
removed. -/
def broadcastTo : List (String × Bool) → List Nat → BroadcastResult
  | [], _ => ⟨[], []⟩
  | c :: rest, data =>
      let r := broadcastTo rest data
      if c.2 then ⟨(c.1, data) :: r.delivered, r.failedAddrs⟩
      else ⟨r.delivered, c.1 :: r.failedAddrs⟩

/-- One full broadcast pass of `readWebSocket`: the TCP loop, then the UDP
loop; the last two components are the registries after the pass — the
loops only read the maps under `RLock`, so they are returned unchanged. -/
def broadcastPass (tcp udp : List (String × Bool)) (data : List Nat) :
    BroadcastResult × BroadcastResult × List (String × Bool) × List (String × Bool) :=
  (broadcastTo tcp data, broadcastTo udp data, tcp, udp)

theorem mem_broadcastTo_delivered (clients : List (String × Bool)) (data : List Nat)
    (c : String × Bool) (hmem : c ∈ clients) (hok : c.2 = true) :
    (c.1, data) ∈ (broadcastTo clients data).delivered := by
  induction clients with
  | nil => simp at hmem
  | cons hd tl ih =>
      rcases List.mem_cons.mp hmem with h | h
      · subst h
        simp [broadcastTo, hok]
      · by_cases hhd : hd.2 <;> simp [broadcastTo, hhd, ih h]

/-- Claim C7: in a broadcast pass, every registered destination whose own
write succeeds receives the payload, regardless of write failures at any
other destinations (TCP and UDP alike), and the pass leaves both registries
exactly as they were — no destination is deregistered by the broadcast. -/
theorem C7_broadcast_isolation (tcp udp : List (String × Bool)) (data : List Nat) :
    (∀ c ∈ tcp, c.2 = true → (c.1, data) ∈ (broadcastPass tcp udp data).1.delivered) ∧
    (∀ c ∈ udp, c.2 = true → (c.1, data) ∈ (broadcastPass tcp udp data).2.1.delivered) ∧
    (broadcastPass tcp udp data).2.2.1 = tcp ∧
    (broadcastPass tcp udp data).2.2.2 = udp :=
  ⟨fun c h hok => mem_broadcastTo_delivered tcp data c h hok,
   fun c h hok => mem_broadcastTo_delivered udp data c h hok, rfl, rfl⟩

/-- Witness for `C7_broadcast_isolation`: with the middle destination's
write failing, the third destination still receives the payload. -/
theorem C7_broadcast_isolation_witness :
    ("c", [9]) ∈ (broadcastPass [("a", true), ("b", false), ("c", true)] [] [9]).1.delivered :=
  (C7_broadcast_isolation [("a", true), ("b", false), ("c", true)] [] [9]).1
    ("c", true) (by decide) rfl

/-- The UDP client-tracking step of `readUDP` (source lines 292–300): the
datagram's source address is added only when not already present. -/
def registerUDP (clients : List String) (src : String) : List String :=
  if src ∈ clients then clients else clients ++ [src]

/-- Events observed by the UDP subsystem: an inbound datagram from a source
address, or a broadcast of a payload to all known endpoints. -/
inductive UDPEvent where
  | datagram (src : String)
  | bcast (data : List Nat)
  deriving DecidableEq, Repr

/-- Effect of one UDP event on the endpoint registry: a datagram registers
its source if new; a broadcast never mutates the registry. -/
def udpStep (clients : List String) : UDPEvent → List String
  | .datagram src => registerUDP clients src
  | .bcast _ => clients

/-- The registry after a sequence of UDP events. -/
def udpRun (clients : List String) (es : List UDPEvent) : List String :=
  es.foldl udpStep clients

/-- For each broadcast in an event sequence, the payload together with the
endpoints targeted by that broadcast (the registry at that moment, as the
loop in `readWebSocket` iterates all of `udpClients`). -/
def udpTraceTargets (clients : List String) : List UDPEvent → List (List Nat × List String)
  | [] => []
  | e :: es =>
      match e with
      | .bcast data => (data, clients) :: udpTraceTargets (udpStep clients e) es
      | .datagram _ => udpTraceTargets (udpStep clients e) es

theorem mem_registerUDP (clients : List String) (src a : String) :
    a ∈ registerUDP clients src ↔ a ∈ clients ∨ a = src := by
  by_cases h : src ∈ clients
  · simp only [registerUDP, if_pos h]
    constructor
    · exact Or.inl
    · rintro (ha | rfl)
      · exact ha
      · exact h
  · simp [registerUDP, if_neg h]

theorem udpStep_mono (clients : List String) (e : UDPEvent) (a : String)
    (ha : a ∈ clients) : a ∈ udpStep clients e := by
  cases e with
  | datagram src => exact (mem_registerUDP clients src a).mpr (Or.inl ha)
  | bcast data => exact ha

theorem udpRun_mono (es : List UDPEvent) (clients : List String) (a : String)
    (ha : a ∈ clients) : a ∈ udpRun clients es := by
  induction es generalizing clients with
  | nil => exact ha
  | cons e es ih => exact ih (udpStep clients e) (udpStep_mono clients e a ha)

theorem udpTrace_targets_mem (es : List UDPEvent) (clients : List String) (a : String)
    (ha : a ∈ clients) : ∀ p ∈ udpTraceTargets clients es, a ∈ p.2 := by
  induction es generalizing clients with
  | nil => intro p hp; simp [udpTraceTargets] at hp
  | cons e es ih =>
      intro p hp
      cases e with
      | datagram src =>
          exact ih (udpStep clients (.datagram src)) (udpStep_mono clients _ a ha) p hp
      | bcast data =>
          rcases List.mem_cons.mp hp with h | h
          · subst h; exact ha
          · exact ih (udpStep clients (.bcast data)) ha p h

/-- Claim C8: a datagram's source is registered exactly when not already
present (membership after `registerUDP` is membership before, or equality
with the source); no UDP event ever removes a registered endpoint (registry
membership is monotone over every event sequence); and a registered
endpoint is among the targets of every subsequent broadcast. -/
theorem C8_registry_grow_only (clients : List String) (es : List UDPEvent) (a src : String) :
    (a ∈ registerUDP clients src ↔ a ∈ clients ∨ a = src) ∧
    (a ∈ clients → a ∈ udpRun clients es) ∧
    (a ∈ clients → ∀ p ∈ udpTraceTargets clients es, a ∈ p.2) :=
  ⟨mem_registerUDP clients src a,
   udpRun_mono es clients a,
   udpTrace_targets_mem es clients a⟩

/-- Witness for `C8_registry_grow_only`: endpoint `e1` survives a later
datagram from `e2` and is targeted by the subsequent broadcast. -/
theorem C8_registry_grow_only_witness :
    ("e1" ∈ registerUDP ["e1"] "e2" ↔ "e1" ∈ ["e1"] ∨ "e1" = "e2") ∧
    "e1" ∈ udpRun ["e1"] [.datagram "e2", .bcast [5]] ∧
    ∀ p ∈ udpTraceTargets ["e1"] [.datagram "e2", .bcast [5]], "e1" ∈ p.2 :=
  ⟨(C8_registry_grow_only ["e1"] [.datagram "e2", .bcast [5]] "e1" "e2").1,
   (C8_registry_grow_only ["e1"] [.datagram "e2", .bcast [5]] "e1" "e2").2.1 (by decide),
   (C8_registry_grow_only ["e1"] [.datagram "e2", .bcast [5]] "e1" "e2").2.2 (by decide)⟩

/-- Closing a handle: nil stays nil, an open or closed handle becomes a
closed one (`Close` on an already-closed handle returns an ignored error). -/
def closeConn : Option Bool → Option Bool
  | none => none
  | some _ => some false

/-- The resources `Bridge.Stop` acts on: the cancellation flags, the
WebSocket connection, TCP listener and registered TCP client connections
(`some b` = present, `b` = still open), the UDP socket, and the number of
goroutines the WaitGroup still tracks. -/
structure BridgeHandles where
  cancelled : Bool
  wsCancelled : Bool
  wsConn : Option Bool
  tcpListener : Option Bool
  tcpClients : List (String × Bool)
  udpConn : Option Bool
  runningTasks : Nat
  deriving DecidableEq, Repr

/-- `Bridge.Stop` (source lines 109–138): cancels the shared context; if a
WebSocket connection exists (nil check — it stays non-nil after a previous
Stop) cancels its context and closes it; closes the TCP listener if any;
closes every registered TCP client connection; closes the UDP socket if
any; waits for every goroutine to observe cancellation and exit
(`wg.Wait()`), and returns nil. -/
def Stop (b : BridgeHandles) : BridgeHandles × Option String :=
  let b1 := { b with cancelled := true }
  let b2 := match b1.wsConn with
    | some _ => { b1 with wsCancelled := true, wsConn := some false }
    | none => b1
  let b3 := { b2 with tcpListener := closeConn b2.tcpListener }
  let b4 := { b3 with tcpClients := b3.tcpClients.map (fun c : String × Bool => (c.1, false)) }
  let b5 := { b4 with udpConn := closeConn b4.udpConn }
  ({ b5 with runningTasks := 0 }, none)

/-- Claim C9: `Stop` never returns an error; running it a second time on the
state a first `Stop` left produces exactly the same state and no error (the
second call is a no-op); and every call sets the cancellation flag, leaves
every registered client connection, the upstream session, the listener and
the UDP socket closed, and returns with no goroutine still running. -/
theorem C9_stop_idempotent (b : BridgeHandles) :
    (Stop b).2 = none ∧
    Stop (Stop b).1 = Stop b ∧
    (Stop b).1.cancelled = true ∧
    ((Stop b).1.tcpClients.all fun c => !c.2) = true ∧
    (Stop b).1.wsConn = closeConn b.wsConn ∧
    (Stop b).1.tcpListener = closeConn b.tcpListener ∧
    (Stop b).1.udpConn = closeConn b.udpConn ∧
    (Stop b).1.runningTasks = 0 := by
  obtain ⟨ca, wca, ws, tl, tc, ud, rt⟩ := b
  cases ws <;> cases tl <;> cases ud <;>
    simp [Stop, closeConn, List.map_map, Function.comp, List.all_eq_true]

/-- The registration step of `acceptTCPConnections` (source lines 198–203):
the accepted connection is stored in the `tcpClients` map under its
remote-address string; Go map assignment replaces any entry already stored
under that key. -/
def mapInsert (m : List (String × Nat)) (k : String) (v : Nat) : List (String × Nat) :=
  match m with
  | [] => [(k, v)]
  | (k1, v1) :: rest => if k1 = k then (k, v) :: rest else (k1, v1) :: mapInsert rest k v

/-- Go `delete(tcpClients, clientAddr)`: removes whatever is stored under
the key. -/
def mapDelete (m : List (String × Nat)) (k : String) : List (String × Nat) :=
  m.filter (fun e => e.1 != k)

/-- Go map lookup `tcpClients[clientAddr]`. -/
def mapLookup (m : List (String × Nat)) (k : String) : Option Nat :=
  match m with
  | [] => none
  | (k1, v1) :: rest => if k1 = k then some v1 else mapLookup rest k

/-- The deferred cleanup of `handleTCPClient` (source lines 216–222): closes
its own connection handle and deletes the registry entry stored under its
remote-address key — whatever connection that entry then holds.  Returns
the registry afterwards and the list of connections the handler closed. -/
def handlerExit (m : List (String × Nat)) (addr : String) (ownConn : Nat) :
    List (String × Nat) × List Nat :=
  (mapDelete m addr, [ownConn])

theorem mapLookup_insert (m : List (String × Nat)) (k : String) (v : Nat) :
    mapLookup (mapInsert m k v) k = some v := by
  induction m with
  | nil => simp [mapInsert, mapLookup]
  | cons hd tl ih =>
      obtain ⟨k1, v1⟩ := hd
      by_cases h : k1 = k
      · simp [mapInsert, mapLookup, h]
      · simp [mapInsert, mapLookup, h, ih]

theorem mapLookup_delete (m : List (String × Nat)) (k : String) :
    mapLookup (mapDelete m k) k = none := by
  induction m with
  | nil => rfl
  | cons hd tl ih =>
      obtain ⟨k1, v1⟩ := hd
      by_cases h : k1 = k
      · simpa [mapDelete, h] using ih
      · simpa [mapDelete, mapLookup, h] using ih

/-- Claim C10: registering connection `c1` and then a second connection
`c2` arriving with the same remote address leaves `c2` as the entry stored
under that address (replacement); when `c1`'s handler then exits, it closes
only its own connection `c1`, yet deletes the entry under the shared key —
deregistering the still-live `c2`, whose lookup afterwards yields nothing. -/
theorem C10_registry_keyed_by_addr (clients : List (String × Nat)) (addr : String)
    (c1 c2 : Nat) :
    mapLookup (mapInsert (mapInsert clients addr c1) addr c2) addr = some c2 ∧
    (handlerExit (mapInsert (mapInsert clients addr c1) addr c2) addr c1).2 = [c1] ∧
    mapLookup (handlerExit (mapInsert (mapInsert clients addr c1) addr c2) addr c1).1 addr
      = none :=
  ⟨mapLookup_insert _ addr c2, rfl, mapLookup_delete _ addr⟩

end Aircast
